import Mathlib

/-!
Verification of the nonmonotone barrier-parameter update strategy.

Shallow embedding of `src/Algorithm/IpNonmonotoneMuUpdate.cpp` (class
`NonmonotoneMuUpdate` of the Ipopt interior-point solver).

Modelling conventions:
* `Number` (C `double`) is modelled by `ℚ`.
* The mutable fields of the object and of the shared iterate state
  (`IpData()`) are collected in an explicit state record `MuState`
  that every operation threads through.
* Values the code obtains from external collaborators during one call
  (oracle proposals, calculated-quantity norms, vector dimensions,
  `epsilon_tol`, the math-library result of `pow(mu, theta_mu)`) are
  collected in an `Inputs` record supplied to the call.
* Calls to `linesearch_->Reset()`, `IpData().Set_mu`, `IpData().Set_tau`
  are recorded by counters in the state, so theorems can talk about
  "a commit happened" / "a reset was signalled".
* Operations whose C++ execution can hit undefined behaviour
  (division of a double by a zero dimension count, `std::list::pop_front`
  on an empty list, dereferencing `begin()` of an empty list, reading the
  uninitialized `max_ref` on an unknown selector) return `Option`,
  with `none` marking exactly those executions.
-/

namespace NonmonotoneMuUpdate

/-- Configuration produced by a successful initialization
(`NonmonotoneMuUpdate::InitializeImpl`), plus the fact whether the
optional fixed-mode oracle collaborator is present. -/
structure Config where
  mu_max : ℚ
  mu_min : ℚ
  tau_min : ℚ
  tau_max : ℚ
  mu_safeguard_exp : ℚ
  mu_safeguard_factor : ℚ
  refs_red_fact : ℚ
  num_refs_max : ℕ
  mu_never_fix : Bool
  adaptive_globalization : ℤ
  kappa_epsilon : ℚ
  kappa_mu : ℚ
  theta_mu : ℚ
  fix_mu_oracle_present : Bool
deriving DecidableEq

/-- Entry of the (selector 2) filter: `AddEntry(f, theta, iter)`. -/
structure FilterEntry where
  f : ℚ
  theta : ℚ
  iter : ℤ
deriving DecidableEq

/-- Mutable state: the object's own fields (`check_if_no_bounds_`,
`no_bounds_`, `refs_vals_`, `init_dual_inf_`, `init_primal_inf_`,
`filter_`) together with the shared iterate state written through
`IpData()` (`mu`, `tau`, the free-mu-mode flag, the info string) and
observation counters for the `Set_mu` / `Set_tau` / `linesearch_->Reset()`
side effects. -/
structure MuState where
  mu : ℚ
  tau : ℚ
  freeMuMode : Bool
  check_if_no_bounds : Bool
  no_bounds : Bool
  refs_vals : List ℚ
  init_dual_inf : ℚ
  init_primal_inf : ℚ
  filter : List FilterEntry
  info_string : String
  nSetMu : ℕ
  nSetTau : ℕ
  nLsReset : ℕ
deriving DecidableEq

/-- Readings taken from external collaborators during one call:
vector dimensions and calculated-quantity values from
`IpData()`/`IpCq()`, the oracle proposals, and the value returned by the
C math library for `pow(mu, theta_mu_)` in the fixed-mode shrink step
(a transcendental function, hence supplied as an input of the embedding). -/
structure Inputs where
  dim_x : ℕ
  dim_s : ℕ
  dim_y_c : ℕ
  dim_y_d : ℕ
  dim_z_L : ℕ
  dim_z_U : ℕ
  dim_v_L : ℕ
  dim_v_U : ℕ
  curr_barrier_error : ℚ
  eps_tol : ℚ
  pow_mu_theta : ℚ
  free_oracle_mu : ℚ
  fix_oracle_mu : ℚ
  curr_avrg_compl : ℚ
  dual_inf_norm1 : ℚ
  primal_inf_norm1 : ℚ
  complty_norm1 : ℚ
  curr_f : ℚ
  curr_constraint_violation : ℚ
  iter_count : ℤ
deriving DecidableEq

/-- Dimension count `n_bounds` of `UpdateBarrierParameter`: total dimension of the four
bound-multiplier vectors `z_L`, `z_U`, `v_L`, `v_U`. -/
def nBounds (inp : Inputs) : ℕ :=
  inp.dim_z_L + inp.dim_z_U + inp.dim_v_L + inp.dim_v_U

/-- Dimension count `n_dual` of `curr_norm_pd_system` / `lower_mu_safeguard`:
`curr_x()->Dim() + curr_s()->Dim()`. -/
def nDual (inp : Inputs) : ℕ := inp.dim_x + inp.dim_s

/-- Dimension count `n_pri`: `curr_y_c()->Dim() + curr_y_d()->Dim()`. -/
def nPri (inp : Inputs) : ℕ := inp.dim_y_c + inp.dim_y_d

/-- Dimension count `n_comp`: total dimension of the four bound-multiplier vectors
(recomputed in `curr_norm_pd_system`, same sum as `n_bounds`). -/
def nComp (inp : Inputs) : ℕ :=
  inp.dim_z_L + inp.dim_z_U + inp.dim_v_L + inp.dim_v_U

/-- Average dual infeasibility, `dual_inf /= (Number)n_dual;` — the code divides unconditionally;
a zero dimension therefore divides a double by zero, modelled as `none`. -/
def avgDualInf (inp : Inputs) : Option ℚ :=
  if nDual inp = 0 then none
  else some (inp.dual_inf_norm1 / (nDual inp : ℚ))

/-- Average primal infeasibility, guarded division per the source;
with dimension 0 the raw 1-norm is kept unchanged. -/
def avgPrimalInf (inp : Inputs) : ℚ :=
  if 0 < nPri inp then inp.primal_inf_norm1 / (nPri inp : ℚ)
  else inp.primal_inf_norm1

/-- Average complementarity, guarded division per the source. -/
def avgCompl (inp : Inputs) : ℚ :=
  if 0 < nComp inp then inp.complty_norm1 / (nComp inp : ℚ)
  else inp.complty_norm1

/-- Method `NonmonotoneMuUpdate::curr_norm_pd_system`: sum
`primal_inf + dual_inf + complty` of the averaged 1-norms.  `none` when
the unguarded division of the dual infeasibility hits dimension 0. -/
def curr_norm_pd_system (inp : Inputs) : Option ℚ :=
  match avgDualInf inp with
  | none => none
  | some dual_inf => some (avgPrimalInf inp + dual_inf + avgCompl inp)

/-- Method `NonmonotoneMuUpdate::min_ref_val`: minimum of the stored reference
values; the code asserts and then dereferences `begin()`, so an empty
history is undefined behaviour (`none`). -/
def min_ref_val : List ℚ → Option ℚ
  | [] => none
  | x :: xs => some (xs.foldl min x)

/-- Method `NonmonotoneMuUpdate::max_ref_val`: maximum of the stored reference
values; empty history is undefined behaviour (`none`). -/
def max_ref_val : List ℚ → Option ℚ
  | [] => none
  | x :: xs => some (xs.foldl max x)

/-- Method `NonmonotoneMuUpdate::Compute_tau`: `Max(tau_min_, Min(1.-mu, tau_max_))`. -/
def Compute_tau (cfg : Config) (mu : ℚ) : ℚ :=
  max cfg.tau_min (min (1 - mu) cfg.tau_max)

/-- Value held by `init_dual_inf_` after the lazy latch
(the source guards the write by `init_dual_inf_ < 0.`). -/
def latchedDual (s : MuState) (dual_inf : ℚ) : ℚ :=
  if s.init_dual_inf < 0 then max 1 dual_inf else s.init_dual_inf

/-- The value held by `init_primal_inf_` after the lazy latch. -/
def latchedPrimal (s : MuState) (primal_inf : ℚ) : ℚ :=
  if s.init_primal_inf < 0 then max 1 primal_inf else s.init_primal_inf

/-- The safeguard formula
`Max(factor * dual_inf/init_dual_inf_, factor * primal_inf/init_primal_inf_)`
evaluated with the latched baselines. -/
def safeguardVal (cfg : Config) (s : MuState) (dual_inf primal_inf : ℚ) : ℚ :=
  max (cfg.mu_safeguard_factor * (dual_inf / latchedDual s dual_inf))
      (cfg.mu_safeguard_factor * (primal_inf / latchedPrimal s primal_inf))

/-- State after `lower_mu_safeguard` wrote the (possibly just latched)
baselines back. -/
def latchState (s : MuState) (dual_inf primal_inf : ℚ) : MuState :=
  { s with init_dual_inf := latchedDual s dual_inf,
           init_primal_inf := latchedPrimal s primal_inf }

/-- Method `NonmonotoneMuUpdate::lower_mu_safeguard`: averaged dual/primal
infeasibility norms, lazy latching of `init_dual_inf_` /
`init_primal_inf_` on their negative sentinel, safeguard formula, and
(under selector 1) the cap by `min_ref_val()`.  Returns the safeguard
value together with the updated state (latches). -/
def lower_mu_safeguard (cfg : Config) (inp : Inputs) (s : MuState) :
    Option (ℚ × MuState) :=
  match avgDualInf inp with
  | none => none
  | some dual_inf =>
    if cfg.adaptive_globalization = 1 then
      match min_ref_val s.refs_vals with
      | none => none
      | some m =>
        some (min (safeguardVal cfg s dual_inf (avgPrimalInf inp)) m,
              latchState s dual_inf (avgPrimalInf inp))
    else
      some (safeguardVal cfg s dual_inf (avgPrimalInf inp),
            latchState s dual_inf (avgPrimalInf inp))

/-- Modelled from the spec: the `Filter` class (`IpFilter`) is not part
of `src/`; acceptability is the standard dominance test of §4.3 — a
candidate `(f, theta)` is acceptable iff no stored entry `(f', theta')`
satisfies `f ≥ f'` and `theta ≥ theta'`. -/
def filterAcceptable (entries : List FilterEntry) (f theta : ℚ) : Bool :=
  entries.all fun e => !(decide (e.f ≤ f) && decide (e.theta ≤ theta))

/-- Modelled from the spec: `Filter::AddEntry` inserts the new triple
(the pruning policy of the filter is not observable from this file). -/
def filterAddEntry (entries : List FilterEntry) (f theta : ℚ) (iter : ℤ) :
    List FilterEntry :=
  entries ++ [{ f := f, theta := theta, iter := iter }]

/-- Method `NonmonotoneMuUpdate::CheckSufficientProgress`.
Selector 1: automatically sufficient while fewer than `num_refs_max_`
references are stored, otherwise sufficient iff the current scaled norm
is `≤ refs_red_fact_ · r` for at least one stored reference `r`.
Selector 2: filter acceptability.  Any other selector leaves the
initialized `retval = true` (the `DBG_ASSERT` is a no-op in release). -/
def CheckSufficientProgress (cfg : Config) (inp : Inputs) (s : MuState) :
    Option Bool :=
  if cfg.mu_never_fix then some true
  else if cfg.adaptive_globalization = 1 then
    if cfg.num_refs_max ≤ s.refs_vals.length then
      match curr_norm_pd_system inp with
      | none => none
      | some curr_error =>
        some (s.refs_vals.any fun r => decide (curr_error ≤ cfg.refs_red_fact * r))
    else some true
  else if cfg.adaptive_globalization = 2 then
    some (filterAcceptable s.filter inp.curr_f inp.curr_constraint_violation)
  else some true

/-- Method `NonmonotoneMuUpdate::RememberCurrentPointAsAccepted`.
Selector 1: compute the current scaled norm, `pop_front()` when the list
already holds `num_refs_max_` entries (undefined behaviour — `none` — on
an empty list), then `push_back`.  Selector 2: filter `AddEntry` with
`param = 1e-5`.  Other selectors: no-op. -/
def RememberCurrentPointAsAccepted (cfg : Config) (inp : Inputs)
    (s : MuState) : Option MuState :=
  if cfg.adaptive_globalization = 1 then
    match curr_norm_pd_system inp with
    | none => none
    | some curr_error =>
      if cfg.num_refs_max ≤ s.refs_vals.length then
        match s.refs_vals with
        | [] => none
        | _ :: rest => some { s with refs_vals := rest ++ [curr_error] }
      else some { s with refs_vals := s.refs_vals ++ [curr_error] }
  else if cfg.adaptive_globalization = 2 then
    let newFilter :=
      filterAddEntry s.filter
        (inp.curr_f - 1/100000 * inp.curr_constraint_violation)
        (inp.curr_constraint_violation - 1/100000 * inp.curr_constraint_violation)
        inp.iter_count
    some { s with filter := newFilter }
  else some s

/-- The raw fixed-mode proposal: `fix_mu_oracle_->CalculateMu()` when
that oracle is present, else `IpCq().curr_avrg_compl()`. -/
def muProposal (cfg : Config) (inp : Inputs) : ℚ :=
  if cfg.fix_mu_oracle_present then inp.fix_oracle_mu
  else inp.curr_avrg_compl

/-- Method `NonmonotoneMuUpdate::NewFixedMu`: `max_ref` from the selector
(selector 1: `max_ref_val()`; selector 2: the constant `1e20`; any other
selector reads an uninitialized variable — `none`); raw proposal from
the fixed-mode oracle when present, else the current average
complementarity; then the clamps in source order:
`Max(·, lower_mu_safeguard())`, `Min(·, 0.1*max_ref)`, `Max(·, mu_min_)`,
`Min(·, mu_max_)`. -/
def NewFixedMu (cfg : Config) (inp : Inputs) (s : MuState) :
    Option (ℚ × MuState) :=
  match (if cfg.adaptive_globalization = 1 then max_ref_val s.refs_vals
         else if cfg.adaptive_globalization = 2 then some ((10 : ℚ) ^ 20)
         else none) with
  | none => none
  | some max_ref =>
    match lower_mu_safeguard cfg inp s with
    | none => none
    | some (sg, s1) =>
      some (min (max (min (max (muProposal cfg inp) sg) (1/10 * max_ref))
                   cfg.mu_min)
              cfg.mu_max, s1)

/-- First block of `UpdateBarrierParameter`: on the very first call
(`!check_if_no_bounds_`) determine whether the problem has any bound
multipliers; if not, latch the permanent no-bounds fast path and commit
`mu = mu_min_`, `tau = tau_min_` (without a line-search reset). -/
def phase0 (cfg : Config) (inp : Inputs) (s : MuState) : MuState :=
  if s.check_if_no_bounds then s
  else if nBounds inp = 0 then
    { s with
      no_bounds := true
      mu := cfg.mu_min
      tau := cfg.tau_min
      nSetMu := s.nSetMu + 1
      nSetTau := s.nSetTau + 1
      check_if_no_bounds := true }
  else { s with check_if_no_bounds := true }

/-- Final commit of the free-mode phase: `mu = Min(mu1, mu_max_)`,
`tau = Compute_tau(mu)`, `Set_mu`, `Set_tau`, `linesearch_->Reset()`. -/
def commitFree (cfg : Config) (mu1 : ℚ) (s : MuState) : MuState :=
  { s with
    mu := min mu1 cfg.mu_max
    tau := Compute_tau cfg (min mu1 cfg.mu_max)
    nSetMu := s.nSetMu + 1
    nSetTau := s.nSetTau + 1
    nLsReset := s.nLsReset + 1 }

/-- Phase 2 of `UpdateBarrierParameter` when the mode is free after
phase 1: oracle proposal, `Max(·, mu_min_)`, raise to the safeguard
(appending the `"m"` tag when it raises), `Min(·, mu_max_)`,
`Compute_tau`, commit both, line-search reset. -/
def freeModePhase (cfg : Config) (inp : Inputs) (s : MuState) :
    Option MuState :=
  match lower_mu_safeguard cfg inp s with
  | none => none
  | some (sg, s1) =>
    if max inp.free_oracle_mu cfg.mu_min < sg then
      some (commitFree cfg sg { s1 with info_string := s1.info_string ++ "m" })
    else
      some (commitFree cfg (max inp.free_oracle_mu cfg.mu_min) s1)

/-- Body of `UpdateBarrierParameter` after the first-call block:
no-bounds fast return; fixed-mode branch (switch back to free on
sufficient progress, else optional shrink of `mu` when the barrier
sub-problem error is below `kappa_epsilon_ * mu`); free-mode branch
(stay free on sufficient progress, else switch to fixed via
`NewFixedMu`); finally the free-mode computation phase or the `"F"`
diagnostic tag. -/
def updateCore (cfg : Config) (inp : Inputs) (s : MuState) :
    Option MuState :=
  if s.no_bounds then some s
  else if s.freeMuMode = false then
    match CheckSufficientProgress cfg inp s with
    | none => none
    | some true =>
      match RememberCurrentPointAsAccepted cfg inp
          { s with freeMuMode := true } with
      | none => none
      | some s2 => freeModePhase cfg inp s2
    | some false =>
      if inp.curr_barrier_error ≤ cfg.kappa_epsilon * s.mu then
        some { s with
               mu := max (min (cfg.kappa_mu * s.mu) inp.pow_mu_theta) (inp.eps_tol / 10)
               tau := Compute_tau cfg s.mu
               nSetMu := s.nSetMu + 1
               nSetTau := s.nSetTau + 1
               nLsReset := s.nLsReset + 1
               info_string := s.info_string ++ "F" }
      else some { s with info_string := s.info_string ++ "F" }
  else
    match CheckSufficientProgress cfg inp s with
    | none => none
    | some true =>
      match RememberCurrentPointAsAccepted cfg inp s with
      | none => none
      | some s1 => freeModePhase cfg inp s1
    | some false =>
      match NewFixedMu cfg inp { s with freeMuMode := false } with
      | none => none
      | some (mu, s2) =>
        some { s2 with
               mu := mu
               tau := Compute_tau cfg mu
               nSetMu := s2.nSetMu + 1
               nSetTau := s2.nSetTau + 1
               nLsReset := s2.nLsReset + 1
               info_string := s2.info_string ++ "F" }

/-- Method `NonmonotoneMuUpdate::UpdateBarrierParameter`: the per-iteration
entry point — the first-call no-bounds detection (`phase0`) followed by
the mode logic (`updateCore`). -/
def UpdateBarrierParameter (cfg : Config) (inp : Inputs) (s0 : MuState) :
    Option MuState :=
  updateCore cfg inp (phase0 cfg inp s0)

/-- Iterated `RememberCurrentPointAsAccepted` over a list of per-call
inputs (used to state the FIFO law of the reference history). -/
def rememberSeq (cfg : Config) : List Inputs → MuState → Option MuState
  | [], s => some s
  | inp :: rest, s =>
    match RememberCurrentPointAsAccepted cfg inp s with
    | none => none
    | some s' => rememberSeq cfg rest s'

/-- Error outcome of initialization: either an
`OptionsList::OPTION_OUT_OF_RANGE` exception carrying the option name,
or a `false` return from an oracle's `Initialize`. -/
inductive InitError where
  | outOfRange (optionName : String) : InitError
  | oracleFailed : InitError
deriving DecidableEq

/-- One `GetNumericValue` + `ASSERT_EXCEPTION` block: a provided value
must satisfy the range predicate (else `OPTION_OUT_OF_RANGE` naming the
option); an absent option takes the default without any check. -/
def checkedNum (name : String) (provided : Option ℚ) (inRange : ℚ → Prop)
    [DecidablePred inRange] (dflt : ℚ) : Except InitError ℚ :=
  match provided with
  | none => Except.ok dflt
  | some v => if inRange v then Except.ok v else Except.error (.outOfRange name)

/-- The recognized options as supplied by the options list (`none` =
not provided, use the default). -/
structure Opts where
  mu_max : Option ℚ := none
  mu_min : Option ℚ := none
  tau_min : Option ℚ := none
  tau_max : Option ℚ := none
  mu_safeguard_exp : Option ℚ := none
  mu_safeguard_factor : Option ℚ := none
  nonmonotone_mu_refs_redfact : Option ℚ := none
  nonmonotone_mu_max_refs : Option ℤ := none
  mu_never_fix : Option ℤ := none
  adaptive_globalization : Option ℤ := none
  kappa_epsilon : Option ℚ := none
  kappa_mu : Option ℚ := none
  theta_mu : Option ℚ := none
deriving DecidableEq

/-- Method `NonmonotoneMuUpdate::InitializeImpl` (the name
`InitializeImpl` itself is kept in this comment only): reads and
validates the options in source order, with `mu_min` defaulting to
`0.1 * IpData().epsilon_tol()` and `tau_max` defaulting to `tau_min`;
`mu_never_fix` and `adaptive_globalization` are read without any range
check; the two oracle `Initialize` calls can fail (plain `false`
return); then the `kappa_epsilon` / `kappa_mu` / `theta_mu` checks. -/
def InitImpl (opts : Opts) (eps_tol : ℚ) (freeOracleInitOk : Bool)
    (fixOraclePresent : Bool) (fixOracleInitOk : Bool) :
    Except InitError Config :=
  match checkedNum "mu_max" opts.mu_max (fun v => 0 < v) (10 ^ 10) with
  | .error e => .error e
  | .ok mu_max =>
  match checkedNum "mu_min" opts.mu_min
      (fun v => 0 < v ∧ v < mu_max) (1/10 * eps_tol) with
  | .error e => .error e
  | .ok mu_min =>
  match checkedNum "tau_min" opts.tau_min (fun v => 0 < v ∧ v < 1) (99/100) with
  | .error e => .error e
  | .ok tau_min =>
  match checkedNum "tau_max" opts.tau_max (fun v => 0 < v ∧ v ≤ 1) tau_min with
  | .error e => .error e
  | .ok tau_max =>
  match checkedNum "mu_safeguard_exp" opts.mu_safeguard_exp
      (fun v => 0 ≤ v) 0 with
  | .error e => .error e
  | .ok mu_safeguard_exp =>
  match checkedNum "mu_safeguard_factor" opts.mu_safeguard_factor
      (fun v => 0 ≤ v) 0 with
  | .error e => .error e
  | .ok mu_safeguard_factor =>
  match checkedNum "nonmonotone_mu_refs_redfact"
      opts.nonmonotone_mu_refs_redfact (fun v => 0 < v ∧ v < 1) (9999/10000) with
  | .error e => .error e
  | .ok refs_red_fact =>
  match (match opts.nonmonotone_mu_max_refs with
         | none => Except.ok (4 : ℕ)
         | some n =>
           if 0 ≤ n then Except.ok n.toNat
           else Except.error (InitError.outOfRange "nonmonotone_mu_max_refs")) with
  | .error e => .error e
  | .ok num_refs_max =>
  let mu_never_fix :=
    match opts.mu_never_fix with
    | none => false
    | some n => decide (n ≠ 0)
  let adaptive_globalization :=
    match opts.adaptive_globalization with
    | none => 1
    | some n => n
  if freeOracleInitOk = false then .error .oracleFailed
  else if fixOraclePresent && fixOracleInitOk = false then .error .oracleFailed
  else
  match checkedNum "kappa_epsilon" opts.kappa_epsilon (fun v => 0 < v) 10 with
  | .error e => .error e
  | .ok kappa_epsilon =>
  match checkedNum "kappa_mu" opts.kappa_mu (fun v => 0 < v ∧ v < 1) (1/5) with
  | .error e => .error e
  | .ok kappa_mu =>
  match checkedNum "theta_mu" opts.theta_mu (fun v => 1 < v ∧ v < 2) (3/2) with
  | .error e => .error e
  | .ok theta_mu =>
    Except.ok
      { mu_max := mu_max, mu_min := mu_min, tau_min := tau_min,
        tau_max := tau_max, mu_safeguard_exp := mu_safeguard_exp,
        mu_safeguard_factor := mu_safeguard_factor,
        refs_red_fact := refs_red_fact, num_refs_max := num_refs_max,
        mu_never_fix := mu_never_fix,
        adaptive_globalization := adaptive_globalization,
        kappa_epsilon := kappa_epsilon, kappa_mu := kappa_mu,
        theta_mu := theta_mu, fix_mu_oracle_present := fixOraclePresent }

/-- State right after a successful initialization: sentinels `-1` for
the safeguard latches, empty history and filter, flags cleared,
free-mu mode set; `mu0`/`tau0` are whatever the shared iterate state
already held (initialization does not write them). -/
def initState (mu0 tau0 : ℚ) : MuState :=
  { mu := mu0, tau := tau0, freeMuMode := true,
    check_if_no_bounds := false, no_bounds := false, refs_vals := [],
    init_dual_inf := -1, init_primal_inf := -1, filter := [],
    info_string := "", nSetMu := 0, nSetTau := 0, nLsReset := 0 }

/-- A configuration all of whose numeric options lie in the declared
ranges of the specification's option table. -/
def validCfg (cfg : Config) : Prop :=
  0 < cfg.mu_min ∧ cfg.mu_min < cfg.mu_max ∧
  0 < cfg.tau_min ∧ cfg.tau_min < 1 ∧
  0 < cfg.tau_max ∧ cfg.tau_max ≤ 1 ∧
  0 ≤ cfg.mu_safeguard_exp ∧ 0 ≤ cfg.mu_safeguard_factor ∧
  0 < cfg.refs_red_fact ∧ cfg.refs_red_fact < 1 ∧
  0 < cfg.kappa_epsilon ∧
  0 < cfg.kappa_mu ∧ cfg.kappa_mu < 1 ∧
  1 < cfg.theta_mu ∧ cfg.theta_mu < 2 ∧
  (cfg.adaptive_globalization = 1 ∨ cfg.adaptive_globalization = 2)

instance : DecidablePred validCfg := fun cfg => by
  unfold validCfg
  infer_instance

/-- Rendering of the specification's §4.4 wording for `NewFixedMu`
(claim C6): the raw proposal "clamped below by the safeguard and μ_min,
then above by the fixed-mode cap and μ_max, in that order".  Only the
order of the four clamps differs from `NewFixedMu`. -/
def NewFixedMu_specOrder (cfg : Config) (inp : Inputs) (s : MuState) :
    Option ℚ :=
  match (if cfg.adaptive_globalization = 1 then max_ref_val s.refs_vals
         else if cfg.adaptive_globalization = 2 then some ((10 : ℚ) ^ 20)
         else none) with
  | none => none
  | some max_ref =>
    match lower_mu_safeguard cfg inp s with
    | none => none
    | some (sg, _) =>
      some (min (min (max (max (muProposal cfg inp) sg) cfg.mu_min)
                   (1/10 * max_ref))
              cfg.mu_max)

/-- Returns `true` iff initialization succeeded. -/
def exceptIsOk {ε α : Type} : Except ε α → Bool
  | .ok _ => true
  | .error _ => false

/-! Concrete instances used by the counterexamples and witnesses below. -/

/-- A benign per-call reading: one variable with one lower bound, one
equality constraint; all three 1-norms are `10`, so the scaled
primal-dual norm is `30`. -/
def exInp : Inputs :=
  { dim_x := 1, dim_s := 0, dim_y_c := 1, dim_y_d := 0,
    dim_z_L := 1, dim_z_U := 0, dim_v_L := 0, dim_v_U := 0,
    curr_barrier_error := 1/2, eps_tol := 2, pow_mu_theta := 3536/10000,
    free_oracle_mu := 1/20, fix_oracle_mu := 0, curr_avrg_compl := 3/10,
    dual_inf_norm1 := 10, primal_inf_norm1 := 10, complty_norm1 := 10,
    curr_f := 0, curr_constraint_violation := 0, iter_count := 0 }

/-- Valid configuration with `tau_min = 2/5 < tau_max = 3/5` and
`num_refs_max = 1` under selector 1. -/
def exCfg1 : Config :=
  { mu_max := 10, mu_min := 1/1000, tau_min := 2/5, tau_max := 3/5,
    mu_safeguard_exp := 0, mu_safeguard_factor := 0,
    refs_red_fact := 9999/10000, num_refs_max := 1, mu_never_fix := false,
    adaptive_globalization := 1, kappa_epsilon := 10, kappa_mu := 1/5,
    theta_mu := 3/2, fix_mu_oracle_present := false }

/-- A fixed-mode state with `mu = 1/2` and a full (length-1) reference
history whose value `1/100` is far below the current scaled norm `30`,
so progress is insufficient. -/
def exFixedState : MuState :=
  { mu := 1/2, tau := 1/2, freeMuMode := false, check_if_no_bounds := true,
    no_bounds := false, refs_vals := [1/100], init_dual_inf := -1,
    init_primal_inf := -1, filter := [], info_string := "",
    nSetMu := 0, nSetTau := 0, nLsReset := 0 }

/-- Valid configuration with `mu_min = 1/10` well above
`eps_tol/10 = 1/10000` of `exInp2`. -/
def exCfg2 : Config :=
  { exCfg1 with mu_max := 10, mu_min := 1/10, tau_min := 1/2, tau_max := 1/2 }

/-- Reading with a small tolerance `eps_tol = 1/1000` and the math
library's value for `pow(1/10, 3/2)` (`≈ 0.0316`, any value `≥ 1/50`
gives the same committed `mu`). -/
def exInp2 : Inputs := { exInp with eps_tol := 1/1000, pow_mu_theta := 1/32 }

/-- Fixed-mode state with `mu = 1/10 = mu_min` of `exCfg2`. -/
def exFixedState2 : MuState :=
  { exFixedState with mu := 1/10, refs_vals := [1/1000] }

/-- Reading whose four bound-multiplier dimensions are all `0`. -/
def exInpNoBounds : Inputs := { exInp with dim_z_L := 0 }

/-- Freshly initialized state (iterate state already holding
`mu = tau = 1/2`). -/
def exInitState : MuState := initState (1/2) (1/2)

/-- Configuration for the `NewFixedMu` clamp-order counterexample:
`mu_min = 1/2` exceeds the fixed-mode cap `0.1 * max_ref = 1/100`. -/
def exCfg6 : Config :=
  { exCfg1 with
    mu_max := 1
    mu_min := 1/2
    tau_min := 1/2
    tau_max := 1/2
    num_refs_max := 4 }

/-- Reading with all infeasibility/complementarity norms zero, so the
safeguard value is `0`. -/
def exInp6 : Inputs :=
  { exInp with dual_inf_norm1 := 0, primal_inf_norm1 := 0, complty_norm1 := 0 }

/-- State with reference history `[1/10]` (so `max_ref_val = 1/10`). -/
def exRefState6 : MuState := { exFixedState with refs_vals := [1/10] }

/-- State `exRefState6` after `lower_mu_safeguard` latched both baselines
to `max(1, 0) = 1`. -/
def exSg6State : MuState :=
  { exRefState6 with init_dual_inf := 1, init_primal_inf := 1 }

/-- Reading with `dim x + dim s = 0` (the unguarded dual average). -/
def exInpNoDual : Inputs := { exInp with dim_x := 0 }

/-- Options list supplying only `adaptive_globalization = 3`. -/
def exOptsAg3 : Opts := { adaptive_globalization := some 3 }

/-- Selector-1 configuration with `num_refs_max = 0`. -/
def exCfg9 : Config := { exCfg1 with num_refs_max := 0 }

/-- A second reading whose scaled primal-dual norm is `60`. -/
def exInpB : Inputs := { exInp with dual_inf_norm1 := 40 }

/-- Result of `UpdateBarrierParameter exCfg1 exInp exFixedState`: the
fixed-mode shrink branch commits `mu = 1/5` together with
`tau = Compute_tau(1/2) = 1/2` computed from the pre-shrink `mu`. -/
def exResult1 : MuState :=
  { mu := 1/5, tau := 1/2, freeMuMode := false, check_if_no_bounds := true,
    no_bounds := false, refs_vals := [1/100], init_dual_inf := -1,
    init_primal_inf := -1, filter := [], info_string := "F",
    nSetMu := 1, nSetTau := 1, nLsReset := 1 }

/-- Result of `UpdateBarrierParameter exCfg2 exInp2 exFixedState2`: the
shrink branch clamps below only by `eps_tol/10 = 1/10000` and commits
`mu = 1/50 < mu_min = 1/10`. -/
def exResult2 : MuState :=
  { mu := 1/50, tau := 1/2, freeMuMode := false, check_if_no_bounds := true,
    no_bounds := false, refs_vals := [1/1000], init_dual_inf := -1,
    init_primal_inf := -1, filter := [], info_string := "F",
    nSetMu := 1, nSetTau := 1, nLsReset := 1 }

/-- Result of the first call on a problem without bounds: the latch
commits `(mu_min, tau_min) = (1/1000, 2/5)` with no line-search reset. -/
def exLatchResult : MuState :=
  { mu := 1/1000, tau := 2/5, freeMuMode := true, check_if_no_bounds := true,
    no_bounds := true, refs_vals := [], init_dual_inf := -1,
    init_primal_inf := -1, filter := [], info_string := "",
    nSetMu := 1, nSetTau := 1, nLsReset := 0 }

/-- State `exFixedState` after `lower_mu_safeguard` latched both baselines to
`max(1, 10) = 10`. -/
def exLatched1 : MuState :=
  { exFixedState with init_dual_inf := 10, init_primal_inf := 10 }

/-!  ## Helper lemmas  -/

/-- Progress test congruence: `CheckSufficientProgress` reads only the reference history and the
filter, so the `check_if_no_bounds_` flag is irrelevant to it. -/
theorem check_set_check (cfg : Config) (inp : Inputs) (s : MuState) (b : Bool) :
    CheckSufficientProgress cfg inp { s with check_if_no_bounds := b } =
      CheckSufficientProgress cfg inp s := rfl

/-- When the call is not the first-call/no-bounds latch, `phase0` only
sets the `check_if_no_bounds_` flag. -/
theorem phase0_eq (cfg : Config) (inp : Inputs) (s : MuState)
    (h : s.check_if_no_bounds = true ∨ nBounds inp ≠ 0) :
    phase0 cfg inp s = { s with check_if_no_bounds := true } := by
  rcases h with h | h
  · cases s
    simp only at h
    simp [phase0, h]
  · by_cases hc : s.check_if_no_bounds
    · cases s
      simp only at hc
      simp [phase0, hc]
    · simp [phase0, hc, h]

/-- State effect: `lower_mu_safeguard` only writes the two safeguard baselines. -/
theorem lower_mu_safeguard_proj {cfg : Config} {inp : Inputs}
    {s : MuState} {v : ℚ} {s1 : MuState}
    (h : lower_mu_safeguard cfg inp s = some (v, s1)) :
    s1.mu = s.mu ∧ s1.tau = s.tau ∧ s1.freeMuMode = s.freeMuMode ∧
    s1.check_if_no_bounds = s.check_if_no_bounds ∧
    s1.no_bounds = s.no_bounds ∧ s1.refs_vals = s.refs_vals ∧
    s1.filter = s.filter ∧ s1.info_string = s.info_string ∧
    s1.nSetMu = s.nSetMu ∧ s1.nSetTau = s.nSetTau ∧
    s1.nLsReset = s.nLsReset := by
  unfold lower_mu_safeguard at h
  split at h
  · exact absurd h (by simp)
  · split at h
    · split at h
      · exact absurd h (by simp)
      · simp only [Option.some.injEq, Prod.mk.injEq] at h
        rw [← h.2]
        simp [latchState]
    · simp only [Option.some.injEq, Prod.mk.injEq] at h
      rw [← h.2]
      simp [latchState]

/-- State effect: `RememberCurrentPointAsAccepted` only writes the reference history
(selector 1) or the filter (selector 2). -/
theorem remember_proj {cfg : Config} {inp : Inputs} {s s' : MuState}
    (h : RememberCurrentPointAsAccepted cfg inp s = some s') :
    s'.mu = s.mu ∧ s'.tau = s.tau ∧ s'.freeMuMode = s.freeMuMode ∧
    s'.check_if_no_bounds = s.check_if_no_bounds ∧
    s'.no_bounds = s.no_bounds ∧
    s'.init_dual_inf = s.init_dual_inf ∧
    s'.init_primal_inf = s.init_primal_inf ∧
    s'.nSetMu = s.nSetMu ∧ s'.nSetTau = s.nSetTau ∧
    s'.nLsReset = s.nLsReset := by
  unfold RememberCurrentPointAsAccepted at h
  split at h
  · split at h
    · exact absurd h (by simp)
    · split at h
      · split at h
        · exact absurd h (by simp)
        · simp only [Option.some.injEq] at h
          rw [← h]
          simp
      · simp only [Option.some.injEq] at h
        rw [← h]
        simp
  · split at h
    · simp only [Option.some.injEq] at h
      rw [← h]
      simp
    · simp only [Option.some.injEq] at h
      rw [← h]
      simp

/-- Range facts and state effects of `NewFixedMu`: the returned value
lies between `min(mu_min, mu_max)` and `mu_max`, and the state is only
changed through the safeguard latches. -/
theorem NewFixedMu_proj {cfg : Config} {inp : Inputs} {s : MuState}
    {v : ℚ} {s1 : MuState} (h : NewFixedMu cfg inp s = some (v, s1)) :
    min cfg.mu_min cfg.mu_max ≤ v ∧ v ≤ cfg.mu_max ∧
    s1.mu = s.mu ∧ s1.tau = s.tau ∧ s1.freeMuMode = s.freeMuMode ∧
    s1.no_bounds = s.no_bounds ∧
    s1.nSetMu = s.nSetMu ∧ s1.nSetTau = s.nSetTau ∧
    s1.nLsReset = s.nLsReset := by
  unfold NewFixedMu at h
  split at h
  · exact absurd h (by simp)
  · split at h
    · exact absurd h (by simp)
    · rename_i max_ref heq sg s2 hsg
      simp only [Option.some.injEq, Prod.mk.injEq] at h
      obtain ⟨hv, hs⟩ := h
      obtain ⟨p1, p2, p3, p4, p5, -, -, -, p9, p10, p11⟩ :=
        lower_mu_safeguard_proj hsg
      subst hs
      refine ⟨?_, ?_, p1, p2, p3, p5, p9, p10, p11⟩
      · rw [← hv]
        exact min_le_min (le_max_right _ _) le_rfl
      · rw [← hv]
        exact min_le_right _ _

/-- Effects of the free-mode computation phase: the committed `tau` is
`Compute_tau` of the committed `mu`, the committed `mu` lies between
`min(mu_min, mu_max)` and `mu_max`, and one commit plus one line-search
reset are recorded. -/
theorem freeModePhase_proj {cfg : Config} {inp : Inputs} {s s' : MuState}
    (h : freeModePhase cfg inp s = some s') :
    s'.tau = Compute_tau cfg s'.mu ∧
    min cfg.mu_min cfg.mu_max ≤ s'.mu ∧ s'.mu ≤ cfg.mu_max ∧
    s'.nSetMu = s.nSetMu + 1 ∧ s'.nSetTau = s.nSetTau + 1 ∧
    s'.nLsReset = s.nLsReset + 1 := by
  unfold freeModePhase at h
  split at h
  · exact absurd h (by simp)
  · rename_i sg s1 hsg
    obtain ⟨-, -, -, -, -, -, -, -, p9, p10, p11⟩ :=
      lower_mu_safeguard_proj hsg
    split at h
    case isTrue hlt =>
      simp only [Option.some.injEq] at h
      rw [← h]
      refine ⟨rfl, ?_, min_le_right _ _, by simp [commitFree, p9],
        by simp [commitFree, p10], by simp [commitFree, p11]⟩
      simp only [commitFree]
      exact min_le_min (le_trans (le_max_right _ _) (le_of_lt hlt)) le_rfl
    case isFalse hlt =>
      simp only [Option.some.injEq] at h
      rw [← h]
      refine ⟨rfl, ?_, min_le_right _ _, by simp [commitFree, p9],
        by simp [commitFree, p10], by simp [commitFree, p11]⟩
      simp only [commitFree]
      exact min_le_min (le_max_right _ _) le_rfl

/-- A state already past the first call whose no-bounds flag is set is
returned unchanged. -/
theorem updateCore_nb {cfg : Config} {inp : Inputs} {s : MuState}
    (h : s.no_bounds = true) : updateCore cfg inp s = some s := by
  simp [updateCore, h]

/-- First call on a problem without bound multipliers: the no-bounds
path is latched and `(mu_min, tau_min)` is committed without a
line-search reset. -/
theorem update_latch {cfg : Config} {inp : Inputs} {s : MuState}
    (h1 : s.check_if_no_bounds = false) (h2 : nBounds inp = 0) :
    UpdateBarrierParameter cfg inp s =
      some { s with
             no_bounds := true
             mu := cfg.mu_min
             tau := cfg.tau_min
             nSetMu := s.nSetMu + 1
             nSetTau := s.nSetTau + 1
             check_if_no_bounds := true } := by
  unfold UpdateBarrierParameter
  have hp : phase0 cfg inp s =
      { s with
        no_bounds := true
        mu := cfg.mu_min
        tau := cfg.tau_min
        nSetMu := s.nSetMu + 1
        nSetTau := s.nSetTau + 1
        check_if_no_bounds := true } := by
    simp [phase0, h1, h2]
  rw [hp]
  exact updateCore_nb rfl

/-- Any later call on a latched no-bounds state returns the state with
only the (already set on the reachable states) first-call flag forced. -/
theorem update_nb {cfg : Config} {inp : Inputs} {s : MuState}
    (hcb : s.check_if_no_bounds = true ∨ nBounds inp ≠ 0)
    (hno : s.no_bounds = true) :
    UpdateBarrierParameter cfg inp s =
      some { s with check_if_no_bounds := true } := by
  unfold UpdateBarrierParameter
  rw [phase0_eq cfg inp s hcb]
  exact updateCore_nb (by simp [hno])

/-- Exhaustive description of a successful `updateCore` call on a state
without the no-bounds latch: either (i) a commit through the free-mode
phase or the switch to fixed mode, with `tau = Compute_tau(mu)`,
`mu ∈ [min(mu_min, mu_max), mu_max]` and a line-search reset; or (ii)
the fixed-mode shrink commit; or (iii) no commit at all. -/
theorem updateCore_cases {cfg : Config} {inp : Inputs} {s s' : MuState}
    (h : updateCore cfg inp s = some s') (hno : s.no_bounds = false) :
    (s'.tau = Compute_tau cfg s'.mu ∧ min cfg.mu_min cfg.mu_max ≤ s'.mu ∧
     s'.mu ≤ cfg.mu_max ∧ s'.nSetMu = s.nSetMu + 1 ∧
     s'.nSetTau = s.nSetTau + 1 ∧ s'.nLsReset = s.nLsReset + 1 ∧
     ¬(s.freeMuMode = false ∧
        CheckSufficientProgress cfg inp s = some false)) ∨
    (s.freeMuMode = false ∧ CheckSufficientProgress cfg inp s = some false ∧
     inp.curr_barrier_error ≤ cfg.kappa_epsilon * s.mu ∧
     s'.mu = max (min (cfg.kappa_mu * s.mu) inp.pow_mu_theta) (inp.eps_tol / 10) ∧
     s'.tau = Compute_tau cfg s.mu ∧ s'.nSetMu = s.nSetMu + 1 ∧
     s'.nSetTau = s.nSetTau + 1 ∧ s'.nLsReset = s.nLsReset + 1) ∨
    (s.freeMuMode = false ∧ CheckSufficientProgress cfg inp s = some false ∧
     ¬(inp.curr_barrier_error ≤ cfg.kappa_epsilon * s.mu) ∧
     s'.mu = s.mu ∧ s'.tau = s.tau ∧ s'.nSetMu = s.nSetMu ∧
     s'.nSetTau = s.nSetTau ∧ s'.nLsReset = s.nLsReset) := by
  unfold updateCore at h
  rw [hno] at h
  simp only [Bool.false_eq_true, if_false] at h
  by_cases hf : s.freeMuMode = false
  · rw [if_pos hf] at h
    split at h
    · exact absurd h (by simp)
    · -- sufficient progress: switch back to free mode and run phase 2
      rename_i heq
      split at h
      · exact absurd h (by simp)
      · rename_i s2 hr
        obtain ⟨-, -, -, -, -, -, -, q8, q9, q10⟩ := remember_proj hr
        obtain ⟨f1, f2, f3, f4, f5, f6⟩ := freeModePhase_proj h
        left
        refine ⟨f1, f2, f3, ?_, ?_, ?_, ?_⟩
        · rw [f4, q8]
        · rw [f5, q9]
        · rw [f6, q10]
        · rintro ⟨-, hcontra⟩
          rw [heq] at hcontra
          exact absurd hcontra (by simp)
    · -- insufficient progress: stay fixed, possibly shrink
      rename_i heq
      split at h
      · rename_i hbe
        simp only [Option.some.injEq] at h
        rw [← h]
        right; left
        exact ⟨hf, heq, hbe, rfl, rfl, rfl, rfl, rfl⟩
      · rename_i hbe
        simp only [Option.some.injEq] at h
        rw [← h]
        right; right
        exact ⟨hf, heq, hbe, rfl, rfl, rfl, rfl, rfl⟩
  · rw [if_neg hf] at h
    split at h
    · exact absurd h (by simp)
    · -- sufficient progress: stay free and run phase 2
      split at h
      · exact absurd h (by simp)
      · rename_i s1 hr
        obtain ⟨-, -, -, -, -, -, -, q8, q9, q10⟩ := remember_proj hr
        obtain ⟨f1, f2, f3, f4, f5, f6⟩ := freeModePhase_proj h
        left
        refine ⟨f1, f2, f3, ?_, ?_, ?_, fun hc => hf hc.1⟩
        · rw [f4, q8]
        · rw [f5, q9]
        · rw [f6, q10]
    · -- insufficient progress: switch to fixed mode via NewFixedMu
      split at h
      · exact absurd h (by simp)
      · rename_i v s2 hn
        obtain ⟨n1, n2, -, -, -, -, n7, n8, n9⟩ := NewFixedMu_proj hn
        simp only [Option.some.injEq] at h
        rw [← h]
        left
        refine ⟨rfl, n1, n2, ?_, ?_, ?_, fun hc => hf hc.1⟩
        · simp only [n7]
        · simp only [n8]
        · simp only [n9]

/-- Shape fact: `lower_mu_safeguard` writes back exactly the latched baselines. -/
theorem lms_state {cfg : Config} {inp : Inputs} {s : MuState} {v : ℚ}
    {s' : MuState} (h : lower_mu_safeguard cfg inp s = some (v, s')) :
    ∃ d, avgDualInf inp = some d ∧
      s'.init_dual_inf = latchedDual s d ∧
      s'.init_primal_inf = latchedPrimal s (avgPrimalInf inp) := by
  unfold lower_mu_safeguard at h
  split at h
  · exact absurd h (by simp)
  · rename_i d hd
    refine ⟨d, hd, ?_⟩
    split at h
    · split at h
      · exact absurd h (by simp)
      · simp only [Option.some.injEq, Prod.mk.injEq] at h
        rw [← h.2]
        simp [latchState]
    · simp only [Option.some.injEq, Prod.mk.injEq] at h
      rw [← h.2]
      simp [latchState]

/-!  ## Claim theorems  -/

/-- C3: under selector 1 with `mu_never_fix = false`,
`CheckSufficientProgress` is `true` whenever the reference history holds
fewer than `num_refs_max` entries, and with a full history it is `true`
iff the current scaled primal-dual residual norm is at most
`refs_red_fact` times at least one stored reference value. -/
theorem C3_check_sufficient_progress (cfg : Config) (inp : Inputs)
    (s : MuState) (hag : cfg.adaptive_globalization = 1)
    (hnf : cfg.mu_never_fix = false) :
    (s.refs_vals.length < cfg.num_refs_max →
       CheckSufficientProgress cfg inp s = some true) ∧
    (∀ e, cfg.num_refs_max ≤ s.refs_vals.length →
       curr_norm_pd_system inp = some e →
       (CheckSufficientProgress cfg inp s = some true ↔
         ∃ r ∈ s.refs_vals, e ≤ cfg.refs_red_fact * r)) := by
  constructor
  · intro hlt
    simp [CheckSufficientProgress, hnf, hag, Nat.not_le.mpr hlt]
  · intro e hge he
    simp [CheckSufficientProgress, hnf, hag, hge, he, List.any_eq_true,
      decide_eq_true_eq]

/-- C3 witness: with the full history `[1/100]` and current norm `30`,
progress is insufficient; the small-history implication is vacuous. -/
theorem C3_check_sufficient_progress_witness :
    (exFixedState.refs_vals.length < exCfg1.num_refs_max →
       CheckSufficientProgress exCfg1 exInp exFixedState = some true) ∧
    (∀ e, exCfg1.num_refs_max ≤ exFixedState.refs_vals.length →
       curr_norm_pd_system exInp = some e →
       (CheckSufficientProgress exCfg1 exInp exFixedState = some true ↔
         ∃ r ∈ exFixedState.refs_vals, e ≤ exCfg1.refs_red_fact * r)) :=
  C3_check_sufficient_progress exCfg1 exInp exFixedState rfl rfl

/-- C5: if the very first call sees all four bound-multiplier
dimensions equal to `0`, the call commits `(mu_min, tau_min)` and
latches a permanent fast path: every subsequent call, on any inputs,
returns the state unchanged (still holding `mu = mu_min`,
`tau = tau_min`), running none of the globalization logic. -/
theorem C5_no_bounds_fast_path (cfg : Config) (inp : Inputs) (s : MuState)
    (h1 : s.check_if_no_bounds = false) (h2 : nBounds inp = 0) :
    ∃ s1, UpdateBarrierParameter cfg inp s = some s1 ∧
      s1.mu = cfg.mu_min ∧ s1.tau = cfg.tau_min ∧ s1.no_bounds = true ∧
      s1.freeMuMode = s.freeMuMode ∧ s1.refs_vals = s.refs_vals ∧
      s1.filter = s.filter ∧ s1.nLsReset = s.nLsReset ∧
      ∀ inp' : Inputs, UpdateBarrierParameter cfg inp' s1 = some s1 := by
  refine ⟨_, update_latch h1 h2, rfl, rfl, rfl, rfl, rfl, rfl, rfl, ?_⟩
  intro inp'
  exact update_nb (Or.inl rfl) rfl

/-- C5 witness: the fast path latched by `exInpNoBounds` on the fresh
state. -/
theorem C5_no_bounds_fast_path_witness :
    ∃ s1, UpdateBarrierParameter exCfg1 exInpNoBounds exInitState = some s1 ∧
      s1.mu = exCfg1.mu_min ∧ s1.tau = exCfg1.tau_min ∧ s1.no_bounds = true ∧
      s1.freeMuMode = exInitState.freeMuMode ∧
      s1.refs_vals = exInitState.refs_vals ∧
      s1.filter = exInitState.filter ∧ s1.nLsReset = exInitState.nLsReset ∧
      ∀ inp' : Inputs, UpdateBarrierParameter exCfg1 inp' s1 = some s1 :=
  C5_no_bounds_fast_path exCfg1 exInpNoBounds exInitState rfl rfl

/-- C7 (amended): `curr_norm_pd_system` and `lower_mu_safeguard` are
total whenever `dim x + dim s > 0` (and, for `lower_mu_safeguard` under
selector 1, the reference history is non-empty, since it takes
`min_ref_val`); the primal and complementarity averages guard the zero
dimension, but the dual average does not. -/
theorem C7_totality (cfg : Config) (inp : Inputs) (s : MuState)
    (hd : 0 < nDual inp)
    (hr : cfg.adaptive_globalization = 1 → s.refs_vals ≠ []) :
    (curr_norm_pd_system inp).isSome = true ∧
    (lower_mu_safeguard cfg inp s).isSome = true := by
  have hd' : nDual inp ≠ 0 := Nat.pos_iff_ne_zero.mp hd
  have hsome : avgDualInf inp =
      some (inp.dual_inf_norm1 / (nDual inp : ℚ)) := by
    simp [avgDualInf, hd']
  constructor
  · simp [curr_norm_pd_system, hsome]
  · unfold lower_mu_safeguard
    rw [hsome]
    dsimp only
    by_cases hag : cfg.adaptive_globalization = 1
    · rw [if_pos hag]
      cases hl : s.refs_vals with
      | nil => exact absurd hl (hr hag)
      | cons a l => simp [hl, min_ref_val]
    · rw [if_neg hag]
      simp

/-- C7 witness: totality on the benign reading `exInp` with the
non-empty history of `exFixedState`. -/
theorem C7_totality_witness :
    (curr_norm_pd_system exInp).isSome = true ∧
    (lower_mu_safeguard exCfg1 exInp exFixedState).isSome = true :=
  C7_totality exCfg1 exInp exFixedState (by norm_num [nDual, exInp])
    (fun _ => by norm_num [exFixedState])

/-- C10: each safeguard baseline is latched exactly once — the first
`lower_mu_safeguard` computation sets it to `max(1, observed averaged
infeasibility)`, a latched (non-negative) baseline is returned
unchanged, and any second call after a first latching call leaves both
baselines unchanged whatever its readings are. -/
theorem C10_safeguard_latch (cfg : Config) (inp : Inputs) (s : MuState)
    (v : ℚ) (s' : MuState)
    (h : lower_mu_safeguard cfg inp s = some (v, s')) :
    (s.init_dual_inf < 0 →
       ∃ d, avgDualInf inp = some d ∧ s'.init_dual_inf = max 1 d) ∧
    (0 ≤ s.init_dual_inf → s'.init_dual_inf = s.init_dual_inf) ∧
    (s.init_primal_inf < 0 →
       s'.init_primal_inf = max 1 (avgPrimalInf inp)) ∧
    (0 ≤ s.init_primal_inf → s'.init_primal_inf = s.init_primal_inf) ∧
    (∀ inp2 v2 s'', s.init_dual_inf < 0 → s.init_primal_inf < 0 →
       lower_mu_safeguard cfg inp2 s' = some (v2, s'') →
       s''.init_dual_inf = s'.init_dual_inf ∧
       s''.init_primal_inf = s'.init_primal_inf) := by
  obtain ⟨d, hd, h1, h2⟩ := lms_state h
  refine ⟨?_, ?_, ?_, ?_, ?_⟩
  · intro hneg
    exact ⟨d, hd, by rw [h1, latchedDual, if_pos hneg]⟩
  · intro hpos
    rw [h1, latchedDual, if_neg (not_lt.mpr hpos)]
  · intro hneg
    rw [h2, latchedPrimal, if_pos hneg]
  · intro hpos
    rw [h2, latchedPrimal, if_neg (not_lt.mpr hpos)]
  · intro inp2 v2 s'' hnd hnp h2call
    obtain ⟨d2, hd2, g1, g2⟩ := lms_state h2call
    have hdl : (1 : ℚ) ≤ s'.init_dual_inf := by
      rw [h1, latchedDual, if_pos hnd]
      exact le_max_left 1 d
    have hpl : (1 : ℚ) ≤ s'.init_primal_inf := by
      rw [h2, latchedPrimal, if_pos hnp]
      exact le_max_left 1 _
    constructor
    · rw [g1, latchedDual,
        if_neg (not_lt.mpr (le_trans zero_le_one hdl))]
    · rw [g2, latchedPrimal,
        if_neg (not_lt.mpr (le_trans zero_le_one hpl))]

/-- C10 witness: the first call on `exFixedState` (both sentinels `-1`)
latches both baselines to `max(1, 10) = 10`. -/
theorem C10_safeguard_latch_witness :
    (exFixedState.init_dual_inf < 0 →
       ∃ d, avgDualInf exInp = some d ∧
         exLatched1.init_dual_inf = max 1 d) ∧
    (0 ≤ exFixedState.init_dual_inf →
       exLatched1.init_dual_inf = exFixedState.init_dual_inf) ∧
    (exFixedState.init_primal_inf < 0 →
       exLatched1.init_primal_inf = max 1 (avgPrimalInf exInp)) ∧
    (0 ≤ exFixedState.init_primal_inf →
       exLatched1.init_primal_inf = exFixedState.init_primal_inf) ∧
    (∀ inp2 v2 s'', exFixedState.init_dual_inf < 0 →
       exFixedState.init_primal_inf < 0 →
       lower_mu_safeguard exCfg1 inp2 exLatched1 = some (v2, s'') →
       s''.init_dual_inf = exLatched1.init_dual_inf ∧
       s''.init_primal_inf = exLatched1.init_primal_inf) :=
  C10_safeguard_latch exCfg1 exInp exFixedState 0 exLatched1
    (by norm_num [lower_mu_safeguard, avgDualInf, avgPrimalInf, nDual, nPri,
      min_ref_val, safeguardVal, latchedDual, latchedPrimal, latchState,
      exCfg1, exInp, exFixedState, exLatched1, max_def, min_def])

/-- Concrete run: on `exCfg1`/`exInp`/`exFixedState` the fixed-mode
shrink branch fires and produces `exResult1`. -/
theorem exRun1 :
    UpdateBarrierParameter exCfg1 exInp exFixedState = some exResult1 := by
  norm_num [UpdateBarrierParameter, updateCore, phase0, CheckSufficientProgress,
    curr_norm_pd_system, avgDualInf, avgPrimalInf, avgCompl, nDual, nPri, nComp,
    nBounds, Compute_tau, exCfg1, exInp, exFixedState, exResult1,
    List.any_cons, List.any_nil, decide_eq_false_iff_not, max_def, min_def]

/-- On the concrete run the progress test reports insufficient progress. -/
theorem exCheck1 :
    CheckSufficientProgress exCfg1 exInp exFixedState = some false := by
  norm_num [CheckSufficientProgress, curr_norm_pd_system, avgDualInf,
    avgPrimalInf, avgCompl, nDual, nPri, nComp, exCfg1, exInp, exFixedState,
    List.any_cons, List.any_nil, decide_eq_false_iff_not]

/-- Concrete run: on `exCfg2`/`exInp2`/`exFixedState2` the shrink branch
commits `mu = 1/50`, below `mu_min = 1/10`. -/
theorem exRun2 :
    UpdateBarrierParameter exCfg2 exInp2 exFixedState2 = some exResult2 := by
  norm_num [UpdateBarrierParameter, updateCore, phase0, CheckSufficientProgress,
    curr_norm_pd_system, avgDualInf, avgPrimalInf, avgCompl, nDual, nPri, nComp,
    nBounds, Compute_tau, exCfg2, exCfg1, exInp2, exInp, exFixedState2,
    exFixedState, exResult2,
    List.any_cons, List.any_nil, decide_eq_false_iff_not, max_def, min_def]

/-- Concrete run: first call on a problem with no bound multipliers
latches the fast path, committing `(mu_min, tau_min)` with no reset. -/
theorem exRunLatch :
    UpdateBarrierParameter exCfg1 exInpNoBounds exInitState =
      some exLatchResult := by
  norm_num [UpdateBarrierParameter, updateCore, phase0, nBounds, exCfg1,
    exInpNoBounds, exInp, exInitState, initState, exLatchResult]

/-- C1 (amended): the pairing between each committed `(mu, tau)`.
Outside the two exceptional paths every commit satisfies
`tau = Compute_tau(committed mu)`; the fixed-mode shrink branch instead
commits `tau = Compute_tau(pre-shrink mu)` next to the shrunk `mu`; and
the first-call no-bounds path commits `(mu_min, tau_min)` directly. -/
theorem C1_tau_pairing (cfg : Config) (inp : Inputs) (s s' : MuState)
    (h : UpdateBarrierParameter cfg inp s = some s') :
    (s.check_if_no_bounds = false → nBounds inp = 0 →
       s'.mu = cfg.mu_min ∧ s'.tau = cfg.tau_min) ∧
    (s.no_bounds = false → (s.check_if_no_bounds = true ∨ nBounds inp ≠ 0) →
       s.freeMuMode = false → CheckSufficientProgress cfg inp s = some false →
       inp.curr_barrier_error ≤ cfg.kappa_epsilon * s.mu →
       s'.tau = Compute_tau cfg s.mu ∧
       s'.mu = max (min (cfg.kappa_mu * s.mu) inp.pow_mu_theta)
                 (inp.eps_tol / 10)) ∧
    (s.no_bounds = false → (s.check_if_no_bounds = true ∨ nBounds inp ≠ 0) →
       ¬(s.freeMuMode = false ∧
           CheckSufficientProgress cfg inp s = some false ∧
           inp.curr_barrier_error ≤ cfg.kappa_epsilon * s.mu) →
       s'.nSetTau ≠ s.nSetTau → s'.tau = Compute_tau cfg s'.mu) := by
  refine ⟨?_, ?_, ?_⟩
  · intro hc hnb
    rw [update_latch hc hnb] at h
    simp only [Option.some.injEq] at h
    rw [← h]
    exact ⟨rfl, rfl⟩
  · intro hno hcb hf hck hbe
    unfold UpdateBarrierParameter at h
    rw [phase0_eq cfg inp s hcb] at h
    have hcore := updateCore_cases h hno
    rw [check_set_check] at hcore
    rcases hcore with ⟨-, -, -, -, -, -, htag⟩ | ⟨-, -, -, hmu, htau, -, -, -⟩ |
      ⟨-, -, hbe2, -, -, -, -, -⟩
    · exact absurd ⟨hf, hck⟩ htag
    · exact ⟨htau, hmu⟩
    · exact absurd hbe hbe2
  · intro hno hcb hnot hne
    unfold UpdateBarrierParameter at h
    rw [phase0_eq cfg inp s hcb] at h
    have hcore := updateCore_cases h hno
    rw [check_set_check] at hcore
    rcases hcore with ⟨f1, -, -, -, -, -, -⟩ | ⟨hf, hck, hbe, -, -, -, -, -⟩ |
      ⟨-, -, -, -, -, -, hc7, -⟩
    · exact f1
    · exact absurd ⟨hf, hck, hbe⟩ hnot
    · exact absurd hc7 hne

/-- C1 counterexample: the shrink branch commits the pair
`(mu, tau) = (1/5, 1/2)` although `Compute_tau(1/5) = 3/5`. -/
theorem C1_counterexample :
    UpdateBarrierParameter exCfg1 exInp exFixedState = some exResult1 ∧
    exResult1.tau ≠ Compute_tau exCfg1 exResult1.mu :=
  ⟨exRun1, by norm_num [exResult1, Compute_tau, exCfg1, max_def, min_def]⟩

/-- C1 witness: the amended pairing law evaluated on the shrink run. -/
theorem C1_tau_pairing_witness :
    exResult1.tau = Compute_tau exCfg1 exFixedState.mu ∧
    exResult1.mu = max (min (exCfg1.kappa_mu * exFixedState.mu)
        exInp.pow_mu_theta) (exInp.eps_tol / 10) :=
  (C1_tau_pairing exCfg1 exInp exFixedState exResult1 exRun1).2.1 rfl
    (Or.inl rfl) rfl exCheck1 (by norm_num [exInp, exCfg1, exFixedState])

/-- C2 (amended): for a valid configuration and a non-negative
tolerance, one call keeps the committed barrier parameter inside
`[min(mu_min, eps_tol/10), max(mu_max, eps_tol/10)]` — the fixed-mode
shrink step clamps below only by `eps_tol/10`, so `mu_min` itself is
not an invariant lower bound. -/
theorem C2_mu_in_range (cfg : Config) (inp : Inputs) (s s' : MuState)
    (hv : validCfg cfg) (he : 0 ≤ inp.eps_tol)
    (h : UpdateBarrierParameter cfg inp s = some s')
    (hlo : min cfg.mu_min (inp.eps_tol / 10) ≤ s.mu)
    (hhi : s.mu ≤ max cfg.mu_max (inp.eps_tol / 10)) :
    min cfg.mu_min (inp.eps_tol / 10) ≤ s'.mu ∧
    s'.mu ≤ max cfg.mu_max (inp.eps_tol / 10) := by
  obtain ⟨hm1, hm2, -, -, -, -, -, -, -, -, -, -, hk2, -, -, -⟩ := hv
  by_cases hcb : s.check_if_no_bounds = true ∨ nBounds inp ≠ 0
  · by_cases hnb : s.no_bounds = true
    · rw [update_nb hcb hnb] at h
      simp only [Option.some.injEq] at h
      rw [← h]
      exact ⟨hlo, hhi⟩
    · have hno : s.no_bounds = false := by
        cases hsnb : s.no_bounds
        · rfl
        · exact absurd hsnb hnb
      unfold UpdateBarrierParameter at h
      rw [phase0_eq cfg inp s hcb] at h
      have hcore := updateCore_cases h hno
      rcases hcore with ⟨-, hb1, hb2, -, -, -, -⟩ | ⟨-, -, -, hmu, -, -, -, -⟩ |
        ⟨-, -, -, hmu, -, -, -, -⟩
      · have hb1' : cfg.mu_min ≤ s'.mu := by
          rw [min_eq_left (le_of_lt hm2)] at hb1
          exact hb1
        exact ⟨le_trans (min_le_left _ _) hb1',
          le_trans hb2 (le_max_left _ _)⟩
      · have hs0 : (0 : ℚ) ≤ s.mu :=
          le_trans (le_min (le_of_lt hm1) (div_nonneg he (by norm_num))) hlo
        constructor
        · rw [hmu]
          exact le_trans (min_le_right _ _) (le_max_right _ _)
        · rw [hmu]
          apply max_le
          · exact le_trans (min_le_left _ _)
              (le_trans (mul_le_of_le_one_left hs0 (le_of_lt hk2)) hhi)
          · exact le_max_right _ _
      · rw [hmu]
        exact ⟨hlo, hhi⟩
  · push_neg at hcb
    obtain ⟨hc, hnb0⟩ := hcb
    have hc' : s.check_if_no_bounds = false := by
      cases hx : s.check_if_no_bounds
      · rfl
      · exact absurd hx hc
    rw [update_latch hc' hnb0] at h
    simp only [Option.some.injEq] at h
    rw [← h]
    exact ⟨min_le_left _ _, le_trans (le_of_lt hm2) (le_max_left _ _)⟩

/-- C2 counterexample: a valid configuration and an in-range entry state
for which the call commits `mu = 1/50 < mu_min = 1/10`. -/
theorem C2_counterexample :
    validCfg exCfg2 ∧ 0 ≤ exInp2.eps_tol ∧
    exCfg2.mu_min ≤ exFixedState2.mu ∧ exFixedState2.mu ≤ exCfg2.mu_max ∧
    UpdateBarrierParameter exCfg2 exInp2 exFixedState2 = some exResult2 ∧
    ¬(exCfg2.mu_min ≤ exResult2.mu) :=
  ⟨by norm_num [validCfg, exCfg2, exCfg1],
   by norm_num [exInp2, exInp],
   by norm_num [exCfg2, exCfg1, exFixedState2, exFixedState],
   by norm_num [exCfg2, exCfg1, exFixedState2, exFixedState],
   exRun2,
   by norm_num [exCfg2, exCfg1, exResult2]⟩

/-- C2 witness: the widened range law evaluated on the `exCfg2` run. -/
theorem C2_mu_in_range_witness :
    min exCfg2.mu_min (exInp2.eps_tol / 10) ≤ exResult2.mu ∧
    exResult2.mu ≤ max exCfg2.mu_max (exInp2.eps_tol / 10) :=
  C2_mu_in_range exCfg2 exInp2 exFixedState2 exResult2
    (by norm_num [validCfg, exCfg2, exCfg1])
    (by norm_num [exInp2, exInp]) exRun2
    (by norm_num [exCfg2, exCfg1, exInp2, exInp, exFixedState2, exFixedState,
      min_def])
    (by norm_num [exCfg2, exCfg1, exInp2, exInp, exFixedState2, exFixedState,
      max_def])

/-- C4 (amended): outside the first-call no-bounds latch, every call
that commits `mu` or `tau` also signals exactly one line-search reset;
the no-bounds latch itself commits `(mu_min, tau_min)` without any
reset. -/
theorem C4_reset_on_commit (cfg : Config) (inp : Inputs) (s s' : MuState)
    (h : UpdateBarrierParameter cfg inp s = some s')
    (hcb : s.check_if_no_bounds = true ∨ nBounds inp ≠ 0)
    (hcommit : s'.nSetMu ≠ s.nSetMu ∨ s'.nSetTau ≠ s.nSetTau) :
    s'.nLsReset = s.nLsReset + 1 := by
  by_cases hnb : s.no_bounds = true
  · rw [update_nb hcb hnb] at h
    simp only [Option.some.injEq] at h
    rw [← h] at hcommit
    rcases hcommit with hx | hx <;> exact absurd rfl hx
  · have hno : s.no_bounds = false := by
      cases hsnb : s.no_bounds
      · rfl
      · exact absurd hsnb hnb
    unfold UpdateBarrierParameter at h
    rw [phase0_eq cfg inp s hcb] at h
    have hcore := updateCore_cases h hno
    rcases hcore with ⟨-, -, -, -, -, hls, -⟩ | ⟨-, -, -, -, -, -, -, hls⟩ |
      ⟨-, -, -, -, -, hsm, hst, -⟩
    · exact hls
    · exact hls
    · rcases hcommit with hx | hx
      · exact absurd hsm hx
      · exact absurd hst hx

/-- C4 counterexample: the first-call no-bounds path commits both `mu`
and `tau` yet never calls the line search's reset. -/
theorem C4_counterexample :
    nBounds exInpNoBounds = 0 ∧
    exInitState.check_if_no_bounds = false ∧
    UpdateBarrierParameter exCfg1 exInpNoBounds exInitState =
      some exLatchResult ∧
    exLatchResult.nSetMu ≠ exInitState.nSetMu ∧
    exLatchResult.nSetTau ≠ exInitState.nSetTau ∧
    exLatchResult.nLsReset = exInitState.nLsReset :=
  ⟨by norm_num [nBounds, exInpNoBounds, exInp],
   rfl, exRunLatch,
   by norm_num [exLatchResult, exInitState, initState],
   by norm_num [exLatchResult, exInitState, initState],
   rfl⟩

/-- C4 witness: the shrink-branch commit of `exRun1` is accompanied by
exactly one line-search reset. -/
theorem C4_reset_on_commit_witness :
    exResult1.nLsReset = exFixedState.nLsReset + 1 :=
  C4_reset_on_commit exCfg1 exInp exFixedState exResult1 exRun1 (Or.inl rfl)
    (Or.inl (by norm_num [exResult1, exFixedState]))

/-- C6 (amended): `NewFixedMu` takes the raw proposal (fixed-mode
oracle if present, else the current average complementarity) and clamps
it below by the safeguard, then above by the fixed-mode cap
(`0.1 × max_ref_val()` under selector 1, `0.1 × 1e20` under selector 2),
then below by `mu_min`, then above by `mu_max` — in that order. -/
theorem C6_fixed_mu_clamps (cfg : Config) (inp : Inputs) (s : MuState)
    (sg : ℚ) (s1 : MuState) (mr : ℚ)
    (hsg : lower_mu_safeguard cfg inp s = some (sg, s1))
    (hmr : (cfg.adaptive_globalization = 1 ∧
              max_ref_val s.refs_vals = some mr) ∨
           (cfg.adaptive_globalization = 2 ∧ mr = 10 ^ 20)) :
    NewFixedMu cfg inp s =
      some (min (max (min (max (muProposal cfg inp) sg) (1/10 * mr))
                  cfg.mu_min)
              cfg.mu_max, s1) := by
  unfold NewFixedMu
  rcases hmr with ⟨hag, hmax⟩ | ⟨hag, hmax⟩
  · simp [hag, hmax, hsg]
  · subst hmax
    simp [hag, hsg]

/-- C6 counterexample: with proposal `3/10`, safeguard `0`, cap `1/100`,
`mu_min = 1/2`, `mu_max = 1`, the source order gives `1/2` whereas the
claimed order — below by safeguard and `mu_min`, then above by cap and
`mu_max` — gives `1/100`. -/
theorem C6_counterexample :
    NewFixedMu exCfg6 exInp6 exRefState6 = some (1/2, exSg6State) ∧
    NewFixedMu_specOrder exCfg6 exInp6 exRefState6 = some (1/100) ∧
    (1/2 : ℚ) ≠ 1/100 := by
  refine ⟨?_, ?_, by norm_num⟩
  · norm_num [NewFixedMu, muProposal, lower_mu_safeguard, avgDualInf,
      avgPrimalInf, nDual, nPri, min_ref_val, max_ref_val, safeguardVal,
      latchedDual, latchedPrimal, latchState, exCfg6, exCfg1, exInp6, exInp,
      exRefState6, exFixedState, exSg6State, max_def, min_def]
  · norm_num [NewFixedMu_specOrder, muProposal, lower_mu_safeguard, avgDualInf,
      avgPrimalInf, nDual, nPri, min_ref_val, max_ref_val, safeguardVal,
      latchedDual, latchedPrimal, latchState, exCfg6, exCfg1, exInp6, exInp,
      exRefState6, exFixedState, max_def, min_def]

/-- C6 witness: the clamp-order law evaluated on the `exCfg6` data. -/
theorem C6_fixed_mu_clamps_witness :
    NewFixedMu exCfg6 exInp6 exRefState6 =
      some (min (max (min (max (muProposal exCfg6 exInp6) 0) (1/10 * (1/10)))
                  exCfg6.mu_min)
              exCfg6.mu_max, exSg6State) :=
  C6_fixed_mu_clamps exCfg6 exInp6 exRefState6 0 exSg6State (1/10)
    (by norm_num [lower_mu_safeguard, avgDualInf, avgPrimalInf, nDual, nPri,
      min_ref_val, safeguardVal, latchedDual, latchedPrimal, latchState,
      exCfg6, exCfg1, exInp6, exInp, exRefState6, exFixedState, exSg6State,
      max_def, min_def])
    (Or.inl ⟨rfl, by norm_num [max_ref_val, exRefState6, exFixedState]⟩)

/-- C7 counterexample: with `dim x + dim s = 0` the unguarded division
of the dual-infeasibility average is reached and both
`curr_norm_pd_system` and `lower_mu_safeguard` are undefined. -/
theorem C7_counterexample :
    nDual exInpNoDual = 0 ∧
    curr_norm_pd_system exInpNoDual = none ∧
    lower_mu_safeguard exCfg1 exInpNoDual exFixedState = none :=
  ⟨by norm_num [nDual, exInpNoDual, exInp],
   by norm_num [curr_norm_pd_system, avgDualInf, nDual, exInpNoDual, exInp],
   by norm_num [lower_mu_safeguard, avgDualInf, nDual, exInpNoDual, exInp]⟩

/-- C8 (amended): with every other option left at its default, each
supplied value violating a declared range among the eleven checked
numeric options fails initialization with the out-of-range condition
naming that option; `adaptive_globalization`, however, is read without
any range check and initialization succeeds for every integer value. -/
theorem C8_option_validation (v : ℚ) (n : ℤ) :
    (¬(0 < v) →
       InitImpl { mu_max := some v } (1/1000) true false true =
         .error (.outOfRange "mu_max")) ∧
    (¬(0 < v ∧ v < 10 ^ 10) →
       InitImpl { mu_min := some v } (1/1000) true false true =
         .error (.outOfRange "mu_min")) ∧
    (¬(0 < v ∧ v < 1) →
       InitImpl { tau_min := some v } (1/1000) true false true =
         .error (.outOfRange "tau_min")) ∧
    (¬(0 < v ∧ v ≤ 1) →
       InitImpl { tau_max := some v } (1/1000) true false true =
         .error (.outOfRange "tau_max")) ∧
    (¬(0 ≤ v) →
       InitImpl { mu_safeguard_exp := some v } (1/1000) true false true =
         .error (.outOfRange "mu_safeguard_exp")) ∧
    (¬(0 ≤ v) →
       InitImpl { mu_safeguard_factor := some v } (1/1000) true false true =
         .error (.outOfRange "mu_safeguard_factor")) ∧
    (¬(0 < v ∧ v < 1) →
       InitImpl { nonmonotone_mu_refs_redfact := some v } (1/1000) true false
           true =
         .error (.outOfRange "nonmonotone_mu_refs_redfact")) ∧
    (¬(0 ≤ n) →
       InitImpl { nonmonotone_mu_max_refs := some n } (1/1000) true false
           true =
         .error (.outOfRange "nonmonotone_mu_max_refs")) ∧
    (¬(0 < v) →
       InitImpl { kappa_epsilon := some v } (1/1000) true false true =
         .error (.outOfRange "kappa_epsilon")) ∧
    (¬(0 < v ∧ v < 1) →
       InitImpl { kappa_mu := some v } (1/1000) true false true =
         .error (.outOfRange "kappa_mu")) ∧
    (¬(1 < v ∧ v < 2) →
       InitImpl { theta_mu := some v } (1/1000) true false true =
         .error (.outOfRange "theta_mu")) ∧
    (∀ g : ℤ, exceptIsOk
        (InitImpl { adaptive_globalization := some g } (1/1000) true false
          true) = true) := by
  refine ⟨?_, ?_, ?_, ?_, ?_, ?_, ?_, ?_, ?_, ?_, ?_, fun g => rfl⟩ <;>
    intro hviol <;>
    simp only [InitImpl, checkedNum] <;>
    rw [if_neg hviol] <;>
    rfl

/-- C8 counterexample: `adaptive_globalization = 3` is outside the
declared set `{1, 2}`, yet initialization succeeds. -/
theorem C8_counterexample :
    exceptIsOk (InitImpl exOptsAg3 (1/1000) true false true) = true ∧
    InitImpl exOptsAg3 (1/1000) true false true ≠
      .error (.outOfRange "adaptive_globalization") := by
  constructor
  · rfl
  · intro hx
    have h1 : exceptIsOk (InitImpl exOptsAg3 (1/1000) true false true) =
        true := rfl
    rw [hx] at h1
    simp [exceptIsOk] at h1

/-- C8 witness: each conjunct discharged at the out-of-range values
`v = -1`, `n = -1`, `g = 3`. -/
theorem C8_option_validation_witness :
    InitImpl { mu_max := some (-1) } (1/1000) true false true =
      .error (.outOfRange "mu_max") ∧
    InitImpl { mu_min := some (-1) } (1/1000) true false true =
      .error (.outOfRange "mu_min") ∧
    InitImpl { tau_min := some (-1) } (1/1000) true false true =
      .error (.outOfRange "tau_min") ∧
    InitImpl { tau_max := some (-1) } (1/1000) true false true =
      .error (.outOfRange "tau_max") ∧
    InitImpl { mu_safeguard_exp := some (-1) } (1/1000) true false true =
      .error (.outOfRange "mu_safeguard_exp") ∧
    InitImpl { mu_safeguard_factor := some (-1) } (1/1000) true false true =
      .error (.outOfRange "mu_safeguard_factor") ∧
    InitImpl { nonmonotone_mu_refs_redfact := some (-1) } (1/1000) true false
        true =
      .error (.outOfRange "nonmonotone_mu_refs_redfact") ∧
    InitImpl { nonmonotone_mu_max_refs := some (-1) } (1/1000) true false
        true =
      .error (.outOfRange "nonmonotone_mu_max_refs") ∧
    InitImpl { kappa_epsilon := some (-1) } (1/1000) true false true =
      .error (.outOfRange "kappa_epsilon") ∧
    InitImpl { kappa_mu := some (-1) } (1/1000) true false true =
      .error (.outOfRange "kappa_mu") ∧
    InitImpl { theta_mu := some (-1) } (1/1000) true false true =
      .error (.outOfRange "theta_mu") ∧
    exceptIsOk
      (InitImpl { adaptive_globalization := some 3 } (1/1000) true false
        true) = true := by
  obtain ⟨h1, h2, h3, h4, h5, h6, h7, h8, h9, h10, h11, h12⟩ :=
    C8_option_validation (-1) (-1)
  exact ⟨h1 (by norm_num), h2 (by norm_num), h3 (by norm_num),
    h4 (by norm_num), h5 (by norm_num), h6 (by norm_num), h7 (by norm_num),
    h8 (by norm_num), h9 (by norm_num), h10 (by norm_num), h11 (by norm_num),
    h12 3⟩

/-- One selector-1 insertion, described uniformly: the new history is
the old one (with its head popped when already at capacity) extended by
the current norm — equivalently a `drop` of the extended list — and the
capacity bound is preserved (for `num_refs_max ≥ 1`). -/
theorem remember_step (cfg : Config) (inp : Inputs) (s : MuState) (e : ℚ)
    (hag : cfg.adaptive_globalization = 1) (hmax : 1 ≤ cfg.num_refs_max)
    (hlen : s.refs_vals.length ≤ cfg.num_refs_max)
    (he : curr_norm_pd_system inp = some e) :
    RememberCurrentPointAsAccepted cfg inp s =
      some { s with refs_vals := (s.refs_vals ++ [e]).drop (s.refs_vals.length + 1 - cfg.num_refs_max) } ∧
    ((s.refs_vals ++ [e]).drop
        (s.refs_vals.length + 1 - cfg.num_refs_max)).length ≤
      cfg.num_refs_max := by
  unfold RememberCurrentPointAsAccepted
  rw [hag, if_pos rfl, he]
  dsimp only
  by_cases hfull : cfg.num_refs_max ≤ s.refs_vals.length
  · have heq : s.refs_vals.length = cfg.num_refs_max :=
      le_antisymm hlen hfull
    have hd : s.refs_vals.length + 1 - cfg.num_refs_max = 1 := by omega
    rw [hd]
    cases hl : s.refs_vals with
    | nil =>
      rw [hl] at heq
      simp only [List.length_nil] at heq
      omega
    | cons a l =>
      rw [hl] at hfull heq
      rw [if_pos hfull]
      constructor
      · rfl
      · simp only [List.length_cons] at heq
        simp only [List.cons_append, List.drop_one, List.tail_cons,
          List.length_append, List.length_cons, List.length_nil]
        omega
  · have hd : s.refs_vals.length + 1 - cfg.num_refs_max = 0 := by omega
    rw [hd, if_neg hfull]
    constructor
    · rfl
    · simp only [List.drop_zero, List.length_append, List.length_cons,
        List.length_nil]
      omega

/-- Iterating selector-1 insertions whose norms are the values `es`
keeps exactly the last `num_refs_max` of `old ++ es` (FIFO), and the
capacity bound is invariant. -/
theorem rememberSeq_refs (cfg : Config)
    (hag : cfg.adaptive_globalization = 1) (hmax : 1 ≤ cfg.num_refs_max) :
    ∀ (L : List Inputs) (es : List ℚ) (s : MuState),
      L.map curr_norm_pd_system = es.map some →
      s.refs_vals.length ≤ cfg.num_refs_max →
      ∃ s_f, rememberSeq cfg L s = some s_f ∧
        s_f.refs_vals = (s.refs_vals ++ es).drop
          (s.refs_vals.length + es.length - cfg.num_refs_max) ∧
        s_f.refs_vals.length ≤ cfg.num_refs_max := by
  intro L
  induction L with
  | nil =>
    intro es s hmap hlen
    cases es with
    | cons e es' => simp at hmap
    | nil =>
      refine ⟨s, rfl, ?_, hlen⟩
      have h0 : s.refs_vals.length + ([] : List ℚ).length -
          cfg.num_refs_max = 0 := by
        simp only [List.length_nil]
        omega
      rw [h0]
      simp
  | cons inp L ih =>
    intro es s hmap hlen
    cases es with
    | nil => simp at hmap
    | cons e es' =>
      simp only [List.map_cons, List.cons.injEq] at hmap
      obtain ⟨he, hrest⟩ := hmap
      obtain ⟨hstep, hlen1⟩ := remember_step cfg inp s e hag hmax hlen he
      obtain ⟨s_f, hseq, hrefs, hlenf⟩ :=
        ih es' { s with refs_vals := (s.refs_vals ++ [e]).drop (s.refs_vals.length + 1 - cfg.num_refs_max) } hrest hlen1
      refine ⟨s_f, ?_, ?_, hlenf⟩
      · rw [rememberSeq, hstep]
        exact hseq
      · rw [hrefs]
        have hd_le : s.refs_vals.length + 1 - cfg.num_refs_max ≤
            (s.refs_vals ++ [e]).length := by
          simp only [List.length_append, List.length_cons, List.length_nil]
          omega
        rw [← List.drop_append_of_le_length hd_le, List.drop_drop]
        have hlists : (s.refs_vals ++ [e]) ++ es' =
            s.refs_vals ++ e :: es' := by
          simp
        rw [hlists]
        have hlen_drop :
            ((s.refs_vals ++ [e]).drop
              (s.refs_vals.length + 1 - cfg.num_refs_max)).length =
            s.refs_vals.length + 1 -
              (s.refs_vals.length + 1 - cfg.num_refs_max) := by
          simp only [List.length_drop, List.length_append, List.length_cons,
            List.length_nil]
        rw [hlen_drop]
        congr 1
        simp only [List.length_cons]
        omega

/-- C9 (amended): under selector 1 with `num_refs_max ≥ 1`, the
reference-history length never exceeds `num_refs_max` over any sequence
of insertions from the fresh state, and after `num_refs_max + 1`
insertions the history is exactly the tail of the inserted values —
the oldest value is evicted first (absent whenever it does not recur)
and the newest is present.  (`num_refs_max = 0` is excluded: there the
first insertion pops an empty `std::list`, which is undefined
behaviour — see the counterexample.) -/
theorem C9_history_fifo (cfg : Config) (L : List Inputs) (es : List ℚ)
    (mu0 tau0 : ℚ)
    (hag : cfg.adaptive_globalization = 1) (hmax : 1 ≤ cfg.num_refs_max)
    (hlen : L.length = cfg.num_refs_max + 1)
    (hmap : L.map curr_norm_pd_system = es.map some) :
    (∀ (L' : List Inputs) (es' : List ℚ) (s_f : MuState),
        L'.map curr_norm_pd_system = es'.map some →
        rememberSeq cfg L' (initState mu0 tau0) = some s_f →
        s_f.refs_vals.length ≤ cfg.num_refs_max) ∧
    ∃ s_f, rememberSeq cfg L (initState mu0 tau0) = some s_f ∧
      s_f.refs_vals = es.tail ∧
      s_f.refs_vals.length = cfg.num_refs_max ∧
      (∀ e0, es.head? = some e0 → e0 ∉ es.tail → e0 ∉ s_f.refs_vals) ∧
      (∀ en, es.getLast? = some en → en ∈ s_f.refs_vals) := by
  have hes_len : es.length = cfg.num_refs_max + 1 := by
    have hml := congrArg List.length hmap
    simp only [List.length_map] at hml
    omega
  constructor
  · intro L' es' s_f hmap' hseq
    obtain ⟨t, ht, -, hlen_t⟩ := rememberSeq_refs cfg hag hmax L' es'
      (initState mu0 tau0) hmap' (by simp [initState])
    rw [hseq] at ht
    simp only [Option.some.injEq] at ht
    rw [← ht] at hlen_t
    exact hlen_t
  · obtain ⟨s_f, hseq, hrefs, -⟩ := rememberSeq_refs cfg hag hmax L es
      (initState mu0 tau0) hmap (by simp [initState])
    have hrefs' : s_f.refs_vals = es.tail := by
      rw [hrefs]
      have h1 : (initState mu0 tau0).refs_vals.length + es.length -
          cfg.num_refs_max = 1 := by
        simp only [initState, List.length_nil]
        omega
      rw [h1]
      have h2 : (initState mu0 tau0).refs_vals ++ es = es := by
        simp [initState]
      rw [h2, List.drop_one]
    have hlen_tail : s_f.refs_vals.length = cfg.num_refs_max := by
      rw [hrefs']
      simp only [List.length_tail]
      omega
    refine ⟨s_f, hseq, hrefs', hlen_tail, ?_, ?_⟩
    · intro e0 h0 hnot
      rw [hrefs']
      exact hnot
    · intro en hlast
      rw [hrefs']
      cases es with
      | nil =>
        simp only [List.length_nil] at hes_len
        omega
      | cons a t =>
        cases t with
        | nil =>
          simp only [List.length_cons, List.length_nil] at hes_len
          omega
        | cons b t' =>
          rw [List.getLast?_cons_cons] at hlast
          have h2 : en ∈ (b :: t').getLast? := Option.mem_def.mpr hlast
          obtain ⟨hne, heq⟩ := List.mem_getLast?_eq_getLast h2
          rw [heq]
          exact List.getLast_mem hne

/-- C9 counterexample: with `num_refs_max = 0` (allowed by the option
validation) the very first insertion, on the empty initial history,
executes `pop_front()` on an empty `std::list` (undefined behaviour,
modelled as `none`) even though the current norm is well defined. -/
theorem C9_counterexample :
    exCfg9.adaptive_globalization = 1 ∧ exCfg9.num_refs_max = 0 ∧
    (initState (1/2) (1/2)).refs_vals = [] ∧
    curr_norm_pd_system exInp = some 30 ∧
    RememberCurrentPointAsAccepted exCfg9 exInp (initState (1/2) (1/2)) =
      none :=
  ⟨rfl, rfl, rfl,
   by norm_num [curr_norm_pd_system, avgDualInf, avgPrimalInf, avgCompl,
     nDual, nPri, nComp, exInp],
   by norm_num [RememberCurrentPointAsAccepted, curr_norm_pd_system,
     avgDualInf, avgPrimalInf, avgCompl, nDual, nPri, nComp, exCfg9, exCfg1,
     exInp, initState]⟩

/-- C9 witness: two insertions with norms `[30, 60]` at capacity `1`
leave exactly `[60]`: `30` is evicted, `60` is present. -/
theorem C9_history_fifo_witness :
    (∀ (L' : List Inputs) (es' : List ℚ) (s_f : MuState),
        L'.map curr_norm_pd_system = es'.map some →
        rememberSeq exCfg1 L' (initState (1/2) (1/2)) = some s_f →
        s_f.refs_vals.length ≤ exCfg1.num_refs_max) ∧
    ∃ s_f, rememberSeq exCfg1 [exInp, exInpB] (initState (1/2) (1/2)) =
        some s_f ∧
      s_f.refs_vals = [(30 : ℚ), 60].tail ∧
      s_f.refs_vals.length = exCfg1.num_refs_max ∧
      (∀ e0, [(30 : ℚ), 60].head? = some e0 → e0 ∉ [(30 : ℚ), 60].tail →
        e0 ∉ s_f.refs_vals) ∧
      (∀ en, [(30 : ℚ), 60].getLast? = some en → en ∈ s_f.refs_vals) :=
  C9_history_fifo exCfg1 [exInp, exInpB] [30, 60] (1/2) (1/2) rfl
    (by norm_num [exCfg1]) rfl
    (by norm_num [curr_norm_pd_system, avgDualInf, avgPrimalInf, avgCompl,
      nDual, nPri, nComp, exInp, exInpB])

end NonmonotoneMuUpdate
